import Mathlib

/-!
Verification of the metric-computation core of the business-registry
dashboard (two script variants: `app.py` and `dashRne.py`).

The shallow embedding below translates the pandas expressions of the two
scripts into executable Lean definitions:

* a table is a list of records with a label and two rational counts
  (pandas numeric cells after coercion);
* `df[df[opcol].isin(labels)] if labels else df` becomes `filter_by_labels`;
* `df.loc[df[opcol] == label, col].values[0]` becomes `lookup_value`
  (an `Option`, `none` modelling the `IndexError` raised on no match);
* the guarded scalar percent change (`... if total != 0 else 0`) becomes
  `percent_change`, and the unguarded per-row column
  `((c25 - c24) / c24) * 100` becomes `rowChangePct`, valued in `PctVal`
  (rationals extended with the IEEE `inf`, `-inf`, `nan` that pandas
  produces on a zero denominator);
* `series.idxmax` / `idxmin` (first index attaining the extremum,
  `nan` skipped, `ValueError` on no valid value, modelled as `none`)
  becomes `biggest_mover`;
* `df.nlargest(n, col)` (descending stable sort, first `n` rows) becomes
  `top_n`, built on an insertion sort `sortDesc`;
* `df.drop([5, 8, 15])[col].sum()` becomes `total` (an `Option`: pandas
  `drop` raises `KeyError` when a label is absent from the index);
* the loaders of the two scripts become `load_data_app` (catching every
  exception, reporting, and substituting an empty frame) and
  `load_data_dash` (no handler: the raw exception propagates, `none`);
* the in-place creation of the `change_pct` scratch column on the three
  pages becomes the `*Step` functions on `StFrame`, a frame paired with
  a flag recording whether the scratch column is present; pandas boolean
  mask indexing returns a copy, while `df_for_summary = df` aliases.
-/

namespace RegistryDash

/-- One row of the loaded table: the operation-type label and the two
coerced yearly counts (`نوع العملية`, `2024 العدد`, `2025 العدد`). -/
structure Record where
  operation_type : String
  count_2024 : ℚ
  count_2025 : ℚ
deriving DecidableEq, Repr

/-- A loaded table: the ordered rows of the spreadsheet after cleaning. -/
abbrev Table := List Record

/-- The two year columns of the table. -/
inductive Year where
  | y2024
  | y2025
deriving DecidableEq, Repr

/-- The count column of a record selected by year. -/
def countOf : Year → Record → ℚ
  | .y2024, r => r.count_2024
  | .y2025, r => r.count_2025

/-! ## Data loader (`load_data` in `app.py` lines 97-110 and
`dashRne.py` lines 32-35) -/

/-- A raw spreadsheet cell of one of the two count columns: a (finite)
numeric value, a non-numeric value (coerced to `NaN` by
`pd.to_numeric(errors='coerce')`), or an empty cell. -/
inductive RawCell where
  | num (q : ℚ)
  | invalid
  | missing
deriving DecidableEq, Repr

/-- A raw spreadsheet row: optional label plus the two raw count cells. -/
structure RawRow where
  label : Option String
  c2024 : RawCell
  c2025 : RawCell
deriving DecidableEq, Repr

/-- Whether a raw cell carries no numeric value after coercion
(`NaN` before `fillna`). -/
def cellBlank : RawCell → Bool
  | .num _ => false
  | .invalid => true
  | .missing => true

/-- A row all of whose cells are empty, removed by `dropna(how='all')`. -/
def allMissing (w : RawRow) : Bool :=
  w.label.isNone && (w.c2024 = RawCell.missing) && (w.c2025 = RawCell.missing)

/-- `pd.to_numeric(errors='coerce').fillna(0)` on one cell: numeric
values pass through, invalid and missing cells become `0`. -/
def coerceCell : RawCell → ℚ
  | .num q => q
  | .invalid => 0
  | .missing => 0

/-- Coercion of a full raw row into a `Record`. -/
def coerceRow (w : RawRow) : Record :=
  { operation_type := w.label.getD ""
    count_2024 := coerceCell w.c2024
    count_2025 := coerceCell w.c2025 }

/-- The ways reading the source spreadsheet can fail. -/
inductive LoadFailure where
  | missingFile
  | corruptFormat
  | schemaMismatch
deriving DecidableEq, Repr

/-- A data source: either readable, yielding raw rows, or unreadable. -/
inductive Source where
  | readable (rows : List RawRow)
  | unreadable (f : LoadFailure)
deriving DecidableEq, Repr

/-- `load_data` of `app.py` (lines 97-110): inside `try`, read the rows,
drop fully-empty rows, coerce the two count columns; on any exception,
report via `st.error` and return an empty frame.  The boolean component
records whether the error message was emitted. -/
def load_data_app : Source → Table × Bool
  | .readable rows => ((rows.filter (fun w => !allMissing w)).map coerceRow, false)
  | .unreadable _ => ([], true)

/-- `load_data` of `dashRne.py` (lines 32-35): a bare `pd.read_excel`
with no handler, so an unreadable source propagates the raw exception
(`none`); no row dropping or coercion is performed. -/
def load_data_dash : Source → Option (List RawRow)
  | .readable rows => some rows
  | .unreadable _ => none

/-! ## Percent change -/

/-- The guarded scalar percent change of `app.py` line 166 (also 269,
368, 468, 581, 592, 596):
`((after - before) / before) * 100 if before != 0 else 0`. -/
def percent_change (before after : ℚ) : ℚ :=
  if before ≠ 0 then ((after - before) / before) * 100 else 0

/-- Value of a per-row percent-change cell: pandas float arithmetic can
produce `inf`, `-inf` or `nan` from the unguarded division. -/
inductive PctVal where
  | nan
  | negInf
  | val (q : ℚ)
  | posInf
deriving DecidableEq, Repr

/-- The unguarded per-row change of `app.py` lines 329, 426, 475-476 and
599: `((c25 - c24) / c24) * 100` with no zero test, so a zero 2024
count yields `inf`, `-inf` or `nan` according to the sign of the
numerator, exactly as numpy division does. -/
def rowChangePct (before after : ℚ) : PctVal :=
  if before ≠ 0 then .val (((after - before) / before) * 100)
  else if after > 0 then .posInf
  else if after < 0 then .negInf
  else .nan

/-- The per-row change of one record (the `change_pct` column). -/
def rowChange (r : Record) : PctVal :=
  rowChangePct r.count_2024 r.count_2025

/-! ## Filtering and lookup -/

/-- `df_filtered = df[df[opcol].isin(selected)] if selected else df`
(`app.py` line 150, `dashRne.py` line 63): an empty selection is falsy
in Python, so the unfiltered frame is returned. -/
def filter_by_labels (t : Table) (labels : List String) : Table :=
  if !labels.isEmpty then t.filter (fun r => labels.contains r.operation_type) else t

/-- `df.loc[df[opcol] == label, col].values[0]` (`app.py` lines 170-171,
`dashRne.py` lines 77-78): filter the frame by label equality, project
the year column and take the first element; `none` models the
`IndexError` raised when no row matches. -/
def lookup_value (t : Table) (label : String) (y : Year) : Option ℚ :=
  ((t.filter (fun r => r.operation_type == label)).map (countOf y)).head?

/-- The creation-total label `مجموع عمليات التأسيس` used by the lookups. -/
def creaLabel : String := "مجموع عمليات التأسيس"

/-- The grand-total label `المجموع` used by the `dashRne.py` lookup. -/
def totalLabel : String := "المجموع"

/-- The `crea_2024`/`crea_2025` computation of `app.py` lines 169-173:
the two lookups run inside `try`, and `except (IndexError, KeyError)`
replaces a failure of either by the pair `(0, 0)`. -/
def crea_values_app (t : Table) : ℚ × ℚ :=
  match lookup_value t creaLabel .y2024, lookup_value t creaLabel .y2025 with
  | some a, some b => (a, b)
  | _, _ => (0, 0)

/-- The `crea_2024`/`crea_2025` computation of `dashRne.py` lines 77-78:
four unprotected lookups whose failure propagates (`none`). -/
def crea_values_dash (t : Table) : Option (ℚ × ℚ) :=
  match lookup_value t creaLabel .y2024, lookup_value t totalLabel .y2024,
        lookup_value t creaLabel .y2025, lookup_value t totalLabel .y2025 with
  | some a, some b, some c, some d => some (a + b, c + d)
  | _, _, _, _ => none

/-! ## Totals with positional exclusion -/

/-- The rows of `t` whose position is not in `excl` (the surviving rows
of `df.drop(excl)` when every dropped label exists). -/
def dropIdx (t : Table) (excl : List ℕ) : Table :=
  (t.enum.filter (fun p => !excl.contains p.1)).map Prod.snd

/-- `total_2024`/`total_2025` as computed from
`df.drop(excl)[col].sum()` (`app.py` lines 164-165 with
`excl = [5, 8, 15]`, `dashRne.py` lines 73-74 with no drop): pandas
`drop` raises `KeyError` when a label is absent from the index, so the
result is `none` unless every excluded index is a valid row index. -/
def total (t : Table) (excl : List ℕ) : Option (ℚ × ℚ) :=
  if excl.all (fun i => i < t.length) then
    some (((dropIdx t excl).map Record.count_2024).sum,
          ((dropIdx t excl).map Record.count_2025).sum)
  else none

/-! ## Biggest mover (`idxmax` / `idxmin` over the `change_pct` column,
`app.py` lines 477-480 and 600-603) -/

/-- Direction of the extremum search. -/
inductive Direction where
  | increase
  | decrease
deriving DecidableEq, Repr

/-- Strict order on per-row change values with `-inf < q < inf`; `nan`
is incomparable (it is skipped before any comparison happens). -/
def pctLt : PctVal → PctVal → Bool
  | _, .nan => false
  | .nan, _ => false
  | .negInf, .negInf => false
  | .negInf, _ => true
  | .val _, .negInf => false
  | .val a, .val b => a < b
  | .val _, .posInf => true
  | .posInf, _ => false

/-- The label/change pairs of the rows whose change is a comparable
value (`idxmax`/`idxmin` skip `nan` cells). -/
def validChanges (t : Table) : List (String × PctVal) :=
  t.filterMap (fun r =>
    if rowChange r = .nan then none else some (r.operation_type, rowChange r))

/-- `df.loc[df['change_pct'].idxmax(), opcol]` paired with the extremal
change (`idxmax` for `increase`, `idxmin` for `decrease`): the first row
attaining the extremum of the `change_pct` column; `none` models the
`ValueError` that `idxmax`/`idxmin` raise when no valid value exists,
in particular on an empty frame. -/
def biggest_mover (t : Table) (d : Direction) : Option (String × PctVal) :=
  match validChanges t with
  | [] => none
  | v :: vs =>
    some (vs.foldl (fun best c =>
      match d with
      | .increase => if pctLt best.2 c.2 then c else best
      | .decrease => if pctLt c.2 best.2 then c else best) v)

/-! ## Top-n (`df.nlargest(n, col)`, `app.py` line 606 and
`dashRne.py` line 274) -/

/-- Insertion step of the descending stable sort: `x` is placed before
the first element whose key is not larger, so an element never moves
ahead of an earlier one with an equal key (pandas `nlargest` keeps the
first occurrences). -/
def insertDesc (key : α → ℚ) (x : α) : List α → List α
  | [] => [x]
  | y :: ys => if key x < key y then y :: insertDesc key x ys else x :: y :: ys

/-- Descending stable insertion sort by a rational key. -/
def sortDesc (key : α → ℚ) : List α → List α
  | [] => []
  | x :: xs => insertDesc key x (sortDesc key xs)

/-- `df.nlargest(n, col)` with the year's count column as key: the first
`n` rows of the descending stable sort. -/
def top_n (t : Table) (n : ℕ) (y : Year) : Table :=
  (sortDesc (countOf y) t).take n

/-! ## Scratch-column frame effects (`change_pct` assignments,
`app.py` lines 329, 475-476, 599) -/

/-- A frame together with a flag recording whether the `change_pct`
scratch column is among its columns. -/
structure StFrame where
  rows : List Record
  hasChangePct : Bool
deriving DecidableEq, Repr

/-- Whether `pat` occurs at the head of `s` (character lists). -/
def leadsWith : List Char → List Char → Bool
  | [], _ => true
  | _ :: _, [] => false
  | p :: ps, c :: cs => p == c && leadsWith ps cs

/-- Whether `pat` occurs somewhere in `s` (character lists). -/
def hasSub (pat : List Char) : List Char → Bool
  | [] => pat.isEmpty
  | c :: cs => leadsWith pat (c :: cs) || hasSub pat cs

/-- Substring containment test (Python `pat in s`). -/
def containsTok (s pat : String) : Bool :=
  hasSub pat.data s.data

/-- The substring patterns selecting creation operations
(`'طلب تأسيس' in op or 'إنشاء' in op`, `app.py` line 261). -/
def creationRow (r : Record) : Bool :=
  containsTok r.operation_type "طلب تأسيس" || containsTok r.operation_type "إنشاء"

/-- The fixed additional-services label list (`app.py` lines 457-460). -/
def service_ops : List String :=
  ["ترسيم رهون", "ترسيم إيجار", "طلب شهادة حجز تسمية",
   "استخراج مضمون", "دعوة لجلسة عامة", "التصريح بالمستفيد الحقيقي"]

/-- The grand-total marker `مجموع` tested on the last row
(`app.py` line 576). -/
def totalMarker : String := "مجموع"

/-- Creation-analysis page (`app.py` lines 262 and 329):
`df_creations = df[mask]` is a fresh copy, and
`df_creations['change_pct'] = ...` adds the scratch column to that copy.
Returns the canonical frame after the page ran, and the working copy. -/
def creationStep (df : StFrame) : StFrame × StFrame :=
  let dfc : StFrame := ⟨df.rows.filter creationRow, df.hasChangePct⟩
  (df, { dfc with hasChangePct := true })

/-- Additional-services page (`app.py` lines 461 and 475-476): same
shape as `creationStep` with the explicit service label list. -/
def servicesStep (df : StFrame) : StFrame × StFrame :=
  let dfs : StFrame := ⟨df.rows.filter (fun r => service_ops.contains r.operation_type),
                        df.hasChangePct⟩
  (df, { dfs with hasChangePct := true })

/-- Executive-summary page (`app.py` lines 576 and 599):
`df_for_summary = df.iloc[:-1] if 'مجموع' in df.iloc[-1][opcol] else df`.
The slice `df.iloc[:-1]` is a fresh frame, but the `else` branch binds
the very same object, so `df_for_summary['change_pct'] = ...` then adds
the scratch column to the canonical frame itself.  The page only runs on
a non-empty frame (`if not df.empty`), so the `none` branch of
`getLast?` is unreachable there. -/
def execSummaryStep (df : StFrame) : StFrame × StFrame :=
  match df.rows.getLast? with
  | none => (df, df)
  | some last =>
    if containsTok last.operation_type totalMarker then
      (df, ⟨df.rows.dropLast, true⟩)
    else
      let d : StFrame := ⟨df.rows, true⟩
      (d, d)

/-! ## Page totals (`app.py` lines 164-166 versus 579-581) -/

/-- `total_2024` of the Data Overview page (`app.py` line 164):
`df.drop([5,8,15])['2024 العدد'].sum()`. -/
def overview_total_2024 (t : Table) : Option ℚ :=
  (total t [5, 8, 15]).map Prod.fst

/-- `total_2025` of the Data Overview page (`app.py` line 165). -/
def overview_total_2025 (t : Table) : Option ℚ :=
  (total t [5, 8, 15]).map Prod.snd

/-- `change_pct` of the Data Overview page (`app.py` line 166):
`((t25 - t24) / t24) * 100 if t24 != 0 else 0`. -/
def overview_change_pct (t : Table) : Option ℚ :=
  (overview_total_2024 t).bind (fun a =>
    (overview_total_2025 t).map (fun b =>
      if a ≠ 0 then ((b - a) / a) * 100 else 0))

/-- `total_2024` of the Executive Summary page (`app.py` line 579), the
same drop-and-sum expression re-evaluated on the canonical frame. -/
def summary_total_2024 (t : Table) : Option ℚ :=
  (total t [5, 8, 15]).map Prod.fst

/-- `total_2025` of the Executive Summary page (`app.py` line 580). -/
def summary_total_2025 (t : Table) : Option ℚ :=
  (total t [5, 8, 15]).map Prod.snd

/-- `change_pct` of the Executive Summary page (`app.py` line 581). -/
def summary_change_pct (t : Table) : Option ℚ :=
  (summary_total_2024 t).bind (fun a =>
    (summary_total_2025 t).map (fun b =>
      if a ≠ 0 then ((b - a) / a) * 100 else 0))

/-! ## Helper lemmas -/

section Helpers

variable {α β : Type*}

theorem head?_filter_eq_find? (p : α → Bool) (l : List α) :
    (l.filter p).head? = l.find? p := by
  induction l with
  | nil => rfl
  | cons x xs ih =>
    by_cases h : p x <;> simp [List.filter_cons, List.find?_cons, h, ih]

theorem length_insertDesc (key : α → ℚ) (x : α) (l : List α) :
    (insertDesc key x l).length = l.length + 1 := by
  induction l with
  | nil => rfl
  | cons y ys ih =>
    simp only [insertDesc]
    split
    · simp [ih]
    · simp

theorem length_sortDesc (key : α → ℚ) (l : List α) :
    (sortDesc key l).length = l.length := by
  induction l with
  | nil => rfl
  | cons x xs ih => simp [sortDesc, length_insertDesc, ih]

theorem perm_insertDesc (key : α → ℚ) (x : α) (l : List α) :
    List.Perm (insertDesc key x l) (x :: l) := by
  induction l with
  | nil => exact List.Perm.refl _
  | cons y ys ih =>
    simp only [insertDesc]
    split
    · exact (ih.cons y).trans (List.Perm.swap x y ys)
    · exact List.Perm.refl _

theorem perm_sortDesc (key : α → ℚ) (l : List α) :
    List.Perm (sortDesc key l) l := by
  induction l with
  | nil => exact List.Perm.refl _
  | cons x xs ih =>
    exact (perm_insertDesc key x (sortDesc key xs)).trans (ih.cons x)

/-- The combined sortedness-and-stability relation: keys descending,
and on equal keys the original position strictly increasing. -/
def DescStable (key : α → ℚ) (idx : α → ℕ) (a b : α) : Prop :=
  key b ≤ key a ∧ (key a = key b → idx a < idx b)

theorem pairwise_insertDesc (key : α → ℚ) (idx : α → ℕ) (x : α) (l : List α)
    (hl : l.Pairwise (DescStable key idx)) (hx : ∀ y ∈ l, idx x < idx y) :
    (insertDesc key x l).Pairwise (DescStable key idx) := by
  induction l with
  | nil => simp [insertDesc, DescStable]
  | cons y ys ih =>
    rw [List.pairwise_cons] at hl
    obtain ⟨hy, hys⟩ := hl
    simp only [insertDesc]
    split
    · rename_i hlt
      refine List.pairwise_cons.mpr ⟨?_, ih hys (fun z hz => hx z (List.mem_cons_of_mem y hz))⟩
      intro z hz
      rcases List.mem_cons.mp ((perm_insertDesc key x ys).mem_iff.mp hz) with rfl | h
      · exact ⟨le_of_lt hlt, fun hk => absurd hk (ne_of_gt hlt)⟩
      · exact hy z h
    · rename_i hnlt
      have hyx : key y ≤ key x := not_lt.mp hnlt
      refine List.pairwise_cons.mpr ⟨?_, List.pairwise_cons.mpr ⟨hy, hys⟩⟩
      intro z hz
      rcases List.mem_cons.mp hz with rfl | h
      · exact ⟨hyx, fun _ => hx z (List.mem_cons_self z ys)⟩
      · exact ⟨le_trans (hy z h).1 hyx, fun _ => hx z (List.mem_cons_of_mem y h)⟩

theorem pairwise_sortDesc (key : α → ℚ) (idx : α → ℕ) (l : List α)
    (hl : l.Pairwise (fun a b => idx a < idx b)) :
    (sortDesc key l).Pairwise (DescStable key idx) := by
  induction l with
  | nil => simp [sortDesc]
  | cons x xs ih =>
    rw [List.pairwise_cons] at hl
    refine pairwise_insertDesc key idx x _ (ih hl.2) ?_
    intro y hy
    exact hl.1 y ((perm_sortDesc key xs).mem_iff.mp hy)

theorem le_fst_of_mem_enumFrom {p : ℕ × α} {n : ℕ} {l : List α}
    (h : p ∈ l.enumFrom n) : n ≤ p.1 := by
  induction l generalizing n with
  | nil => simp [List.enumFrom] at h
  | cons x xs ih =>
    rw [List.enumFrom] at h
    rcases List.mem_cons.mp h with rfl | h'
    · exact le_refl n
    · exact le_trans (Nat.le_succ n) (ih h')

theorem pairwise_fst_lt_enumFrom (n : ℕ) (l : List α) :
    (l.enumFrom n).Pairwise (fun a b => a.1 < b.1) := by
  induction l generalizing n with
  | nil => simp [List.enumFrom]
  | cons x xs ih =>
    rw [List.enumFrom]
    refine List.pairwise_cons.mpr ⟨?_, ih (n + 1)⟩
    intro p hp
    exact lt_of_lt_of_le (Nat.lt_succ_self n) (le_fst_of_mem_enumFrom hp)

theorem enumFrom_map_snd_eq (n : ℕ) (l : List α) :
    (l.enumFrom n).map Prod.snd = l := by
  induction l generalizing n with
  | nil => rfl
  | cons x xs ih => simp [List.enumFrom, ih]

theorem map_snd_insertDesc (key : β → ℚ) (x : ℕ × β) (l : List (ℕ × β)) :
    (insertDesc (fun p => key p.2) x l).map Prod.snd
      = insertDesc key x.2 (l.map Prod.snd) := by
  induction l with
  | nil => rfl
  | cons y ys ih =>
    simp only [insertDesc, List.map_cons]
    by_cases h : key x.2 < key y.2
    · rw [if_pos h, if_pos h, List.map_cons, ih]
    · rw [if_neg h, if_neg h]
      simp

theorem map_snd_sortDesc (key : β → ℚ) (l : List (ℕ × β)) :
    (sortDesc (fun p => key p.2) l).map Prod.snd = sortDesc key (l.map Prod.snd) := by
  induction l with
  | nil => rfl
  | cons x xs ih =>
    simp only [sortDesc, List.map_cons]
    rw [map_snd_insertDesc, ih]

theorem dropIdx_nil_excl (t : Table) : dropIdx t [] = t := by
  have h1 : t.enum.filter (fun p => !([] : List ℕ).contains p.1) = t.enum := by
    apply List.filter_eq_self.mpr
    intro a _
    rfl
  rw [dropIdx, h1]
  exact enumFrom_map_snd_eq 0 t

end Helpers

/-! ## Concrete tables used as inputs of counterexamples and witnesses -/

/-- A one-row table. -/
def t1 : Table := [⟨"A", 1, 2⟩]

/-- A one-row table whose label is not any of the looked-up labels. -/
def t2 : Table := [⟨"B", 3, 4⟩]

/-- A three-row table with a duplicated label, for first-match lookups. -/
def t3 : Table := [⟨"A", 1, 2⟩, ⟨"B", 3, 4⟩, ⟨"B", 9, 9⟩]

/-! ## Claims -/

/-- Claim C1, counterexample: on the one-row table `t1`,
`filter_by_labels` with the empty label set returns `t1` itself (the
Python conditional falls back to the unfiltered frame on an empty,
hence falsy, selection), not the empty table the claim requires. -/
theorem C1_counterexample : filter_by_labels t1 [] ≠ ([] : Table) := by
  decide

/-- Claim C1, amended: `filter_by_labels` applied with an empty label
set returns the original table unchanged (not the empty table), and
applied with the set of all labels occurring in the table returns the
original table (so in particular a table equal to it as a set of
records). -/
theorem C1_filter_by_labels_spec (t : Table) :
    filter_by_labels t [] = t ∧
    filter_by_labels t (t.map Record.operation_type) = t := by
  constructor
  · simp [filter_by_labels]
  · cases t with
    | nil => simp [filter_by_labels]
    | cons r rs =>
      rw [filter_by_labels, if_pos (by simp)]
      apply List.filter_eq_self.mpr
      intro a ha
      simp only [List.contains_iff_exists_mem_beq]
      exact ⟨a.operation_type, List.mem_map_of_mem Record.operation_type ha, by simp⟩

/-- Claim C2, counterexample: the per-row `change_pct` column of
`app.py` line 329 (likewise 426, 475-476, 599) divides without a zero
guard, so a row with `count_2024 = 0` and `count_2025 = 5` gets the
value `inf`, not the `0` the claim requires at every call site. -/
theorem C2_counterexample :
    rowChangePct 0 5 = PctVal.posInf ∧ rowChangePct 0 5 ≠ PctVal.val 0 := by
  decide

/-- Claim C2, amended: the guarded scalar `percent_change` is `0` when
`before = 0` and `((after - before) / before) * 100` otherwise, with
`percent_change x x = 0` for nonzero `x`; the per-row `change_pct`
columns compute the same formula only for nonzero `before`, and for
`before = 0` produce an infinite or undefined value, never `0`. -/
theorem C2_percent_change_spec :
    (∀ after : ℚ, percent_change 0 after = 0) ∧
    (∀ before after : ℚ, before ≠ 0 →
       percent_change before after = ((after - before) / before) * 100) ∧
    (∀ x : ℚ, x ≠ 0 → percent_change x x = 0) ∧
    (∀ before after : ℚ, before ≠ 0 →
       rowChangePct before after = PctVal.val (((after - before) / before) * 100)) ∧
    (∀ after : ℚ, rowChangePct 0 after ≠ PctVal.val 0) := by
  refine ⟨?_, ?_, ?_, ?_, ?_⟩
  · intro after; simp [percent_change]
  · intro before after h; simp [percent_change, h]
  · intro x h; simp [percent_change, h]
  · intro before after h; simp [rowChangePct, h]
  · intro after
    simp only [rowChangePct, ne_eq, not_true_eq_false, if_false]
    split_ifs <;> simp

/-- Claim C2, witness for the amended theorem at concrete inputs. -/
theorem C2_percent_change_witness :
    percent_change 0 7 = 0 ∧
    percent_change 2 3 = ((3 - 2) / 2) * 100 ∧
    percent_change 5 5 = 0 ∧
    rowChangePct 2 3 = PctVal.val (((3 - 2) / 2) * 100) ∧
    rowChangePct 0 7 ≠ PctVal.val 0 :=
  ⟨C2_percent_change_spec.1 7,
   C2_percent_change_spec.2.1 2 3 (by norm_num),
   C2_percent_change_spec.2.2.1 5 (by norm_num),
   C2_percent_change_spec.2.2.2.1 2 3 (by norm_num),
   C2_percent_change_spec.2.2.2.2 7⟩

/-- Claim C3, counterexample: on the table `t2`, which has no record
labelled `مجموع عمليات التأسيس`, the lookup itself fails (`none`, the
`IndexError`), but the `app.py` call site of lines 169-173 catches the
failure and silently substitutes `(0, 0)` — the failure is not surfaced
to the caller as the claim requires. -/
theorem C3_counterexample :
    lookup_value t2 creaLabel Year.y2024 = none ∧ crea_values_app t2 = (0, 0) := by
  constructor
  · rfl
  · rfl

/-- Claim C3, amended: `lookup_value` returns the count of the first
record whose `operation_type` equals the label and fails (no value)
when no such record exists; at the `app.py` call site the failure is
caught and replaced by `(0, 0)` rather than surfaced, while at the
`dashRne.py` call site it propagates to the caller. -/
theorem C3_lookup_value_spec :
    (∀ (t : Table) (label : String) (y : Year) (r : Record),
       t.find? (fun r => r.operation_type == label) = some r →
       lookup_value t label y = some (countOf y r)) ∧
    (∀ (t : Table) (label : String) (y : Year),
       t.find? (fun r => r.operation_type == label) = none →
       lookup_value t label y = none) ∧
    (∀ t : Table, lookup_value t creaLabel Year.y2024 = none →
       crea_values_app t = (0, 0)) ∧
    (∀ t : Table, lookup_value t creaLabel Year.y2024 = none →
       crea_values_dash t = none) := by
  refine ⟨?_, ?_, ?_, ?_⟩
  · intro t label y r h
    rw [lookup_value, List.head?_map, head?_filter_eq_find?, h]
    rfl
  · intro t label y h
    rw [lookup_value, List.head?_map, head?_filter_eq_find?, h]
    rfl
  · intro t h
    rw [crea_values_app, h]
  · intro t h
    rw [crea_values_dash, h]

/-- Claim C3, witness for the amended theorem at concrete inputs:
first-match lookup on the duplicated label of `t3`, failing lookup, and
the two call-site behaviors on `t2`. -/
theorem C3_lookup_value_witness :
    lookup_value t3 "B" Year.y2025 = some 4 ∧
    lookup_value t3 "C" Year.y2025 = none ∧
    crea_values_app t2 = (0, 0) ∧
    crea_values_dash t2 = none :=
  ⟨C3_lookup_value_spec.1 t3 "B" Year.y2025 ⟨"B", 3, 4⟩ (by decide),
   C3_lookup_value_spec.2.1 t3 "C" Year.y2025 (by decide),
   C3_lookup_value_spec.2.2.1 t2 (by decide),
   C3_lookup_value_spec.2.2.2 t2 (by decide)⟩

/-- Claim C4, counterexample: `load_data` of `dashRne.py` (lines 32-35)
has no exception handler, so an unreadable source (here a missing file)
propagates the raw exception (`none`) instead of returning an empty
table and signalling the failure. -/
theorem C4_counterexample :
    load_data_dash (Source.unreadable LoadFailure.missingFile) = none := rfl

/-- Claim C4, amended: `load_data` of `app.py` returns an empty table
and signals the failure (the `st.error` report, the `Bool` component)
for every unreadable source; `load_data` of `dashRne.py` instead
propagates the raw exception for every unreadable source. -/
theorem C4_load_data_failure_spec :
    (∀ f : LoadFailure, load_data_app (Source.unreadable f) = ([], true)) ∧
    (∀ f : LoadFailure, load_data_dash (Source.unreadable f) = none) :=
  ⟨fun _ => rfl, fun _ => rfl⟩

/-- Claim C5: `biggest_mover` on the empty table fails for either
direction — `idxmax`/`idxmin` raise `ValueError` on an empty column,
modelled by `none`; in particular no sentinel record is returned. -/
theorem C5_biggest_mover_empty :
    biggest_mover [] Direction.increase = none ∧
    biggest_mover [] Direction.decrease = none :=
  ⟨rfl, rfl⟩

/-- Claim C6: `top_n` returns exactly `min n (length t)` records; it is
the projection of the first `n` entries of the descending stable sort
of the position-indexed table, that sorted list is descending in the
year's count with original positions strictly increasing on ties, the
returned records are descending in the year's count, and the sort is a
permutation of the table. -/
theorem C6_top_n_spec (t : Table) (n : ℕ) (y : Year) :
    (top_n t n y).length = min n t.length ∧
    top_n t n y = ((sortDesc (fun p => countOf y p.2) t.enum).take n).map Prod.snd ∧
    (sortDesc (fun p => countOf y p.2) t.enum).Pairwise
      (fun a b => countOf y b.2 ≤ countOf y a.2 ∧
        (countOf y a.2 = countOf y b.2 → a.1 < b.1)) ∧
    (top_n t n y).Pairwise (fun a b => countOf y b ≤ countOf y a) ∧
    List.Perm (sortDesc (countOf y) t) t := by
  have hmap : (sortDesc (fun p => countOf y p.2) t.enum).map Prod.snd
      = sortDesc (countOf y) t := by
    rw [map_snd_sortDesc, List.enum, enumFrom_map_snd_eq]
  have heq : top_n t n y
      = ((sortDesc (fun p => countOf y p.2) t.enum).take n).map Prod.snd := by
    rw [List.map_take, hmap, top_n]
  have hpair : (sortDesc (fun p => countOf y p.2) t.enum).Pairwise
      (DescStable (fun p => countOf y p.2) Prod.fst) :=
    pairwise_sortDesc _ Prod.fst t.enum (pairwise_fst_lt_enumFrom 0 t)
  refine ⟨?_, heq, hpair, ?_, perm_sortDesc (countOf y) t⟩
  · rw [top_n, List.length_take, length_sortDesc]
  · rw [heq]
    exact List.pairwise_map.mpr
      ((hpair.sublist (List.take_sublist n _)).imp (fun h => h.1))

/-- Claim C7: `total` with an empty exclusion list is defined and equals
the pair of unconditional column sums over all rows; on the empty table
it is `(0, 0)`. -/
theorem C7_total_spec (t : Table) :
    total t [] = some ((t.map Record.count_2024).sum, (t.map Record.count_2025).sum) ∧
    total ([] : Table) [] = some ((0 : ℚ), (0 : ℚ)) := by
  constructor
  · rw [total, if_pos (by simp), dropIdx_nil_excl]
  · rfl

/-- A readable source with one fully-present row whose 2024 cell holds
the (valid) numeric value `-5`. -/
def badSource : Source :=
  Source.readable [⟨some "A", RawCell.num (-5), RawCell.num 3⟩]

/-- Claim C8, counterexample: coercion (`pd.to_numeric(errors='coerce')
.fillna(0)`) zeroes only invalid and missing cells; a raw numeric cell
holding `-5` passes through, so the loaded table contains a negative
`count_2024`, contradicting the claimed non-negativity invariant. -/
theorem C8_counterexample :
    ((load_data_app badSource).1.map Record.count_2024) = [(-5 : ℚ)] ∧
    ¬ (0 : ℚ) ≤ -5 := by
  constructor
  · rfl
  · norm_num

/-- Claim C8, amended: after loading, every count is the coercion of
the corresponding raw cell of a surviving row, where coercion preserves
numeric values unchanged (negative ones included) and sends invalid and
missing cells to `0`; counts are therefore always (finite) rationals,
but not necessarily non-negative. -/
theorem C8_coercion_spec :
    (∀ q : ℚ, coerceCell (RawCell.num q) = q) ∧
    coerceCell RawCell.invalid = 0 ∧
    coerceCell RawCell.missing = 0 ∧
    (∀ rows : List RawRow,
       ((load_data_app (Source.readable rows)).1.map Record.count_2024)
         = (rows.filter (fun w => !allMissing w)).map (fun w => coerceCell w.c2024) ∧
       ((load_data_app (Source.readable rows)).1.map Record.count_2025)
         = (rows.filter (fun w => !allMissing w)).map (fun w => coerceCell w.c2025)) := by
  refine ⟨fun _ => rfl, rfl, rfl, ?_⟩
  intro rows
  constructor <;> simp [load_data_app, coerceRow, List.map_map, Function.comp]

/-- The frame used by the C9 counterexample: one row whose label does
not contain the total marker, no scratch column yet. -/
def frame1 : StFrame := ⟨[⟨"A", 1, 2⟩], false⟩

/-- The frame used by the C9 witness: its last row carries the
grand-total marker. -/
def frame2 : StFrame := ⟨[⟨"المجموع", 1, 2⟩], false⟩

/-- Claim C9, counterexample: on the Executive Summary page, when the
last row's label does not contain `مجموع`, `df_for_summary` is bound to
the canonical frame itself (`else df`, `app.py` line 576), so the
`change_pct` assignment of line 599 adds the scratch column to the
canonical table — its set of columns changes, contradicting the claim. -/
theorem C9_counterexample :
    (execSummaryStep frame1).1.hasChangePct = true ∧ frame1.hasChangePct = false :=
  ⟨rfl, rfl⟩

/-- Claim C9, amended: the creation and services pages compute
`change_pct` into fresh copies and leave the canonical frame unchanged;
the Executive Summary page leaves the canonical frame unchanged when
the last row carries the total marker (the slice `df.iloc[:-1]` is a
fresh frame), but otherwise aliases it, and the scratch column is then
added to the canonical frame itself. -/
theorem C9_frame_effect_spec :
    (∀ df : StFrame, (creationStep df).1 = df) ∧
    (∀ df : StFrame, (servicesStep df).1 = df) ∧
    (∀ (df : StFrame) (last : Record), df.rows.getLast? = some last →
       (containsTok last.operation_type totalMarker = true →
          (execSummaryStep df).1 = df) ∧
       (containsTok last.operation_type totalMarker = false →
          (execSummaryStep df).1 = ⟨df.rows, true⟩)) := by
  refine ⟨fun _ => rfl, fun _ => rfl, ?_⟩
  intro df last h
  constructor <;> intro hc <;> simp [execSummaryStep, h, hc]

/-- Claim C9, witness for the amended theorem: on `frame2`, whose last
row carries the total marker, the Executive Summary page leaves the
canonical frame unchanged; the creation page on `frame1` likewise. -/
theorem C9_frame_effect_witness :
    (creationStep frame1).1 = frame1 ∧ (execSummaryStep frame2).1 = frame2 :=
  ⟨C9_frame_effect_spec.1 frame1,
   (C9_frame_effect_spec.2.2 frame2 ⟨"المجموع", 1, 2⟩ (by decide)).1 (by decide)⟩

/-- The 16-row table used by the C10 witness (long enough for the
dropped labels 5, 8 and 15 to exist). -/
def t16 : Table := List.replicate 16 ⟨"A", 1, 2⟩

/-- Claim C10: on every non-empty table, the 2024/2025 totals and the
yearly percent change of the Data Overview page equal those of the
Executive Summary page, both being the sums over all rows except those
at positions 5, 8 and 15 (`df.drop([5,8,15])`) with the same guarded
percent change. -/
theorem C10_page_totals_agree (t : Table) (hne : t ≠ []) :
    overview_total_2024 t = summary_total_2024 t ∧
    overview_total_2025 t = summary_total_2025 t ∧
    overview_change_pct t = summary_change_pct t ∧
    overview_total_2024 t = (total t [5, 8, 15]).map Prod.fst ∧
    overview_total_2025 t = (total t [5, 8, 15]).map Prod.snd ∧
    overview_change_pct t = (total t [5, 8, 15]).map (fun p => percent_change p.1 p.2) := by
  refine ⟨rfl, rfl, rfl, rfl, rfl, ?_⟩
  cases h : total t [5, 8, 15] with
  | none =>
    simp [overview_change_pct, overview_total_2024, overview_total_2025, h]
  | some p =>
    simp [overview_change_pct, overview_total_2024, overview_total_2025,
          percent_change, h]

/-- Claim C10, witness at the concrete 16-row table `t16`. -/
theorem C10_page_totals_witness :
    t16 ≠ [] ∧
    (overview_total_2024 t16 = summary_total_2024 t16 ∧
     overview_total_2025 t16 = summary_total_2025 t16 ∧
     overview_change_pct t16 = summary_change_pct t16 ∧
     overview_total_2024 t16 = (total t16 [5, 8, 15]).map Prod.fst ∧
     overview_total_2025 t16 = (total t16 [5, 8, 15]).map Prod.snd ∧
     overview_change_pct t16 = (total t16 [5, 8, 15]).map (fun p => percent_change p.1 p.2)) :=
  ⟨by decide, C10_page_totals_agree t16 (by decide)⟩

end RegistryDash
